import Mathlib

/-!
Verification of the task-status reconciliation logic, the remote-client
error behaviour, the persistence-layer uniqueness guarantees and the
tool-call shim of the repository `Teckt/shadow-clone`.

The Python sources are shallowly embedded: dictionaries become structures,
`None`-able values become `Option`, raised exceptions become `Except`
errors, and the outcome of each HTTP request is passed in explicitly so
that the post-fetch computation is a pure function.
-/

/-! ## String helpers

`strContains s pat` models the Python substring test `pat in s`, and
`strToLower` models `str.lower()` (pointwise character lowering; the
embedding covers the ASCII range handled by `Char.toLower`). -/

/-- Model of the Python substring test `pat in s`. -/
def strContains (s pat : String) : Bool :=
  decide (pat.data <:+: s.data)

/-- Model of Python `str.lower()`: lower every character. -/
def strToLower (s : String) : String :=
  ⟨s.data.map Char.toLower⟩

theorem strToLower_data (s : String) : (strToLower s).data = s.data.map Char.toLower := rfl

/-! ## Data fetched from the remote API (`github_api.py`) -/

/-- A pull request as consumed by `get_task_status`
(`github_api.py`, lines 217-232 and 262-271). -/
structure PullRequest where
  number : Nat
  title : String
  body : String
  state : String
  merged : Bool
  draft : Bool
deriving DecidableEq, Repr

/-- The author object of an issue comment (`comment["user"]`). -/
structure CommentUser where
  login : String
deriving DecidableEq, Repr

/-- An issue comment as consumed by `get_task_status` (lines 235-243). -/
structure IssueComment where
  user : CommentUser
  created_at : String
  body : String
deriving DecidableEq, Repr

/-- The issue passed through to `_determine_task_status`; the resolver
receives it but never inspects it. -/
structure Issue where
  number : Nat
  state : String
  title : String
deriving DecidableEq, Repr

/-- One entry of the `copilot_activity` list built in `get_task_status`
(lines 240-243). -/
structure Activity where
  created_at : String
  body : String
deriving DecidableEq, Repr

/-! ## The task status resolver (`github_api.py`) -/

/-- The list `issue_refs` of `get_task_status` (line 228). -/
def issueRefs (issue_number : Nat) : List String :=
  ["#" ++ Nat.repr issue_number,
   "fixes #" ++ Nat.repr issue_number,
   "closes #" ++ Nat.repr issue_number]

/-- The per-PR test of the link-detection loop (lines 226-230):
`any(ref in pr_body or ref in pr_title for ref in issue_refs)` where
`pr_body` and `pr_title` are the lowercased body and title. -/
def prMatchesIssue (issue_number : Nat) (pr : PullRequest) : Bool :=
  (issueRefs issue_number).any fun ref =>
    strContains (strToLower pr.body) ref || strContains (strToLower pr.title) ref

/-- The link-detection loop of `get_task_status` (lines 223-232): walk the
pull requests in the order received and keep the first match. -/
def findLinkedPR (issue_number : Nat) : List PullRequest → Option PullRequest
  | [] => none
  | pr :: rest =>
    if prMatchesIssue issue_number pr then some pr else findLinkedPR issue_number rest

/-- The `copilot_activity` accumulation loop of `get_task_status`
(lines 237-243): keep the comments whose author login is
`copilot-swe-agent`, recording creation time and body. -/
def copilotActivityOf : List IssueComment → List Activity
  | [] => []
  | c :: rest =>
    if c.user.login == "copilot-swe-agent" then
      ⟨c.created_at, c.body⟩ :: copilotActivityOf rest
    else
      copilotActivityOf rest

/-- `_determine_task_status` (`github_api.py`, lines 257-273). -/
def determine_task_status (_issue : Issue) (linked_pr : Option PullRequest)
    (copilot_activity : List Activity) : String :=
  if copilot_activity.isEmpty then "assigned"
  else
    match linked_pr with
    | some pr =>
      if pr.state == "closed" then
        if pr.merged then "completed" else "failed"
      else if pr.draft then "in_progress"
      else "ready_for_review"
    | none => "in_progress"

/-- The dictionary returned by `get_task_status` (lines 245-251). -/
structure TaskStatusResult where
  issue : Issue
  linked_pr : Option PullRequest
  pr_number : Option Nat
  copilot_activity : List Activity
  status : String
deriving DecidableEq, Repr

/-- The pure core of `get_task_status` (`github_api.py`, lines 209-251),
taking the already-fetched issue, pull-request page and comment list. -/
def get_task_status (issue : Issue) (prs : List PullRequest)
    (comments : List IssueComment) : TaskStatusResult :=
  let linked := findLinkedPR issue.number prs
  let activity := copilotActivityOf comments
  { issue := issue
    linked_pr := linked
    pr_number := linked.map PullRequest.number
    copilot_activity := activity
    status := determine_task_status issue linked activity }

/-! ## Supporting lemmas for the resolver -/

theorem copilotActivityOf_eq_nil (comments : List IssueComment)
    (h : ∀ c ∈ comments, c.user.login ≠ "copilot-swe-agent") :
    copilotActivityOf comments = [] := by
  induction comments with
  | nil => rfl
  | cons c rest ih =>
    have hc : c.user.login ≠ "copilot-swe-agent" := h c (List.mem_cons_self c rest)
    have hrest : ∀ x ∈ rest, x.user.login ≠ "copilot-swe-agent" :=
      fun x hx => h x (List.mem_cons_of_mem c hx)
    simp only [copilotActivityOf]
    rw [if_neg (by simpa using hc)]
    exact ih hrest

theorem copilotActivityOf_ne_nil (comments : List IssueComment) (c : IssueComment)
    (hc : c ∈ comments) (hl : c.user.login = "copilot-swe-agent") :
    copilotActivityOf comments ≠ [] := by
  induction comments with
  | nil => cases hc
  | cons d rest ih =>
    simp only [copilotActivityOf]
    rcases List.mem_cons.mp hc with h | h
    · subst h
      rw [if_pos (by simpa using hl)]
      simp
    · by_cases hd : d.user.login == "copilot-swe-agent"
      · rw [if_pos hd]; simp
      · rw [if_neg hd]; exact ih h

theorem findLinkedPR_eq_none (n : Nat) (prs : List PullRequest)
    (h : ∀ pr ∈ prs, prMatchesIssue n pr = false) :
    findLinkedPR n prs = none := by
  induction prs with
  | nil => rfl
  | cons pr rest ih =>
    simp only [findLinkedPR]
    rw [if_neg (by simp [h pr (List.mem_cons_self pr rest)])]
    exact ih fun q hq => h q (List.mem_cons_of_mem pr hq)

theorem findLinkedPR_first (n : Nat) (l₁ : List PullRequest) (pr : PullRequest)
    (l₂ : List PullRequest) (hskip : ∀ q ∈ l₁, prMatchesIssue n q = false)
    (hpr : prMatchesIssue n pr = true) :
    findLinkedPR n (l₁ ++ pr :: l₂) = some pr := by
  induction l₁ with
  | nil => simp [findLinkedPR, hpr]
  | cons q rest ih =>
    simp only [List.cons_append, findLinkedPR]
    rw [if_neg (by simp [hskip q (List.mem_cons_self q rest)])]
    exact ih fun x hx => hskip x (List.mem_cons_of_mem q hx)

theorem findLinkedPR_ne_none (n : Nat) (prs : List PullRequest) (pr : PullRequest)
    (hmem : pr ∈ prs) (hpr : prMatchesIssue n pr = true) :
    findLinkedPR n prs ≠ none := by
  induction prs with
  | nil => cases hmem
  | cons q rest ih =>
    simp only [findLinkedPR]
    by_cases hq : prMatchesIssue n q
    · rw [if_pos hq]; simp
    · rw [if_neg hq]
      rcases List.mem_cons.mp hmem with h | h
      · subst h; exact absurd hpr (by simpa using hq)
      · exact ih h

/-! ## Claim theorems about the resolver -/

/-- C1: with no comment authored by `copilot-swe-agent`, the resolved
status is `assigned`, whatever the pull-request page contains. -/
theorem c1_no_agent_comment_gives_assigned (issue : Issue) (prs : List PullRequest)
    (comments : List IssueComment)
    (h : ∀ c ∈ comments, c.user.login ≠ "copilot-swe-agent") :
    (get_task_status issue prs comments).status = "assigned" := by
  have hact : copilotActivityOf comments = [] := copilotActivityOf_eq_nil comments h
  simp [get_task_status, determine_task_status, hact]

/-- C1 witness: a concrete issue, a matching merged closed PR and one
non-agent comment still resolve to `assigned`. -/
theorem c1_witness :
    (get_task_status ⟨7, "open", "t"⟩
      [⟨9, "Fixes #7", "", "closed", true, false⟩]
      [⟨⟨"alice"⟩, "2024-01-01", "hi"⟩]).status = "assigned" :=
  c1_no_agent_comment_gives_assigned ⟨7, "open", "t"⟩
    [⟨9, "Fixes #7", "", "closed", true, false⟩]
    [⟨⟨"alice"⟩, "2024-01-01", "hi"⟩]
    (by decide)

/-- C10: `_determine_task_status` never inspects its issue argument, so
any two issue values give the same label. -/
theorem c10_status_ignores_issue (i₁ i₂ : Issue) (linked_pr : Option PullRequest)
    (copilot_activity : List Activity) :
    determine_task_status i₁ linked_pr copilot_activity =
      determine_task_status i₂ linked_pr copilot_activity := rfl

/-- C2: with at least one agent comment, the resolved status is
`completed` for a closed merged linked PR, `failed` for a closed unmerged
one, `in_progress` for an open draft, `ready_for_review` for an open
non-draft, and `in_progress` when no PR is linked. -/
theorem c2_status_with_agent_activity (issue : Issue) (prs : List PullRequest)
    (comments : List IssueComment)
    (hact : ∃ c ∈ comments, c.user.login = "copilot-swe-agent") :
    (∀ pr, (get_task_status issue prs comments).linked_pr = some pr →
      ((pr.state = "closed" → pr.merged = true →
          (get_task_status issue prs comments).status = "completed") ∧
       (pr.state = "closed" → pr.merged = false →
          (get_task_status issue prs comments).status = "failed") ∧
       (pr.state = "open" → pr.draft = true →
          (get_task_status issue prs comments).status = "in_progress") ∧
       (pr.state = "open" → pr.draft = false →
          (get_task_status issue prs comments).status = "ready_for_review"))) ∧
    ((get_task_status issue prs comments).linked_pr = none →
      (get_task_status issue prs comments).status = "in_progress") := by
  obtain ⟨c, hc, hlogin⟩ := hact
  have hne : copilotActivityOf comments ≠ [] :=
    copilotActivityOf_ne_nil comments c hc hlogin
  have hempty : (copilotActivityOf comments).isEmpty = false := by
    cases h : copilotActivityOf comments with
    | nil => exact absurd h hne
    | cons a l => simp
  constructor
  · intro pr hpr
    have hlink : findLinkedPR issue.number prs = some pr := by
      simpa [get_task_status] using hpr
    refine ⟨?_, ?_, ?_, ?_⟩
    · intro hstate hmerged
      simp [get_task_status, determine_task_status, hlink, hempty, hstate, hmerged]
    · intro hstate hmerged
      simp [get_task_status, determine_task_status, hlink, hempty, hstate, hmerged]
    · intro hstate hdraft
      have hsc : (pr.state == "closed") = false := by rw [hstate]; decide
      simp [get_task_status, determine_task_status, hlink, hempty, hsc, hdraft]
    · intro hstate hdraft
      have hsc : (pr.state == "closed") = false := by rw [hstate]; decide
      simp [get_task_status, determine_task_status, hlink, hempty, hsc, hdraft]
  · intro hnone
    have hlink : findLinkedPR issue.number prs = none := by
      simpa [get_task_status] using hnone
    simp [get_task_status, determine_task_status, hlink, hempty]

/-- C2 witness: a closed merged linked PR together with one agent
comment resolves to `completed` at a concrete input. -/
theorem c2_witness :
    (get_task_status ⟨7, "open", "t"⟩
      [⟨9, "Fixes #7", "", "closed", true, false⟩]
      [⟨⟨"copilot-swe-agent"⟩, "2024-01-01", "working"⟩]).status = "completed" := by
  have h := c2_status_with_agent_activity ⟨7, "open", "t"⟩
    [⟨9, "Fixes #7", "", "closed", true, false⟩]
    [⟨⟨"copilot-swe-agent"⟩, "2024-01-01", "working"⟩]
    ⟨⟨⟨"copilot-swe-agent"⟩, "2024-01-01", "working"⟩, by decide, rfl⟩
  exact (h.1 ⟨9, "Fixes #7", "", "closed", true, false⟩ (by decide)).1 rfl rfl

/-- C3: link detection keeps the first pull request, in the order
received, whose lowered title or body contains one of the reference
substrings; if none matches, `linked_pr` and `pr_number` are both `None`. -/
theorem c3_first_match_wins (issue : Issue) (prs : List PullRequest)
    (comments : List IssueComment) :
    ((∀ pr ∈ prs, prMatchesIssue issue.number pr = false) →
       (get_task_status issue prs comments).linked_pr = none ∧
       (get_task_status issue prs comments).pr_number = none) ∧
    (∀ (l₁ : List PullRequest) (pr : PullRequest) (l₂ : List PullRequest),
       prs = l₁ ++ pr :: l₂ →
       (∀ q ∈ l₁, prMatchesIssue issue.number q = false) →
       prMatchesIssue issue.number pr = true →
       (get_task_status issue prs comments).linked_pr = some pr ∧
       (get_task_status issue prs comments).pr_number = some pr.number) := by
  constructor
  · intro h
    have hnone := findLinkedPR_eq_none issue.number prs h
    simp [get_task_status, hnone]
  · intro l₁ pr l₂ hsplit hskip hpr
    subst hsplit
    have hsome := findLinkedPR_first issue.number l₁ pr l₂ hskip hpr
    simp [get_task_status, hsome]

/-- C3 witness: with a non-matching PR ahead of a matching one, the
matching one is linked; with no matching PR, nothing is linked. -/
theorem c3_witness :
    (get_task_status ⟨7, "open", "t"⟩
      [⟨3, "Unrelated", "", "open", false, false⟩,
       ⟨9, "Fixes #7", "", "open", false, false⟩] []).linked_pr =
      some ⟨9, "Fixes #7", "", "open", false, false⟩ ∧
    (get_task_status ⟨7, "open", "t"⟩
      [⟨3, "Unrelated", "", "open", false, false⟩] []).linked_pr = none := by
  constructor
  · exact ((c3_first_match_wins ⟨7, "open", "t"⟩
      [⟨3, "Unrelated", "", "open", false, false⟩,
       ⟨9, "Fixes #7", "", "open", false, false⟩] []).2
      [⟨3, "Unrelated", "", "open", false, false⟩]
      ⟨9, "Fixes #7", "", "open", false, false⟩ [] rfl (by decide) (by decide)).1
  · exact ((c3_first_match_wins ⟨7, "open", "t"⟩
      [⟨3, "Unrelated", "", "open", false, false⟩] []).1 (by decide)).1

/-! ## Character-level facts used by the substring claims -/

theorem toLower_ofNat_fixed (m : Nat) (h1 : 97 ≤ m) (h2 : m ≤ 122) :
    Char.toLower (Char.ofNat m) = Char.ofNat m := by
  interval_cases m <;> decide

theorem char_toLower_idem (c : Char) :
    Char.toLower (Char.toLower c) = Char.toLower c := by
  by_cases h : 65 ≤ c.toNat ∧ c.toNat ≤ 90
  · have h1 : Char.toLower c = Char.ofNat (c.toNat + 32) := by
      simp only [Char.toLower, ge_iff_le]
      rw [if_pos h]
    rw [h1]
    exact toLower_ofNat_fixed _ (by omega) (by omega)
  · have h1 : Char.toLower c = c := by
      simp only [Char.toLower, ge_iff_le]
      rw [if_neg h]
    rw [h1, h1]

theorem strToLower_idem (s : String) : strToLower (strToLower s) = strToLower s := by
  unfold strToLower
  congr 1
  rw [List.map_map]
  exact List.map_congr_left fun c _ => char_toLower_idem c

theorem digitChar_toLower_fixed (m : Nat) :
    Char.toLower (Nat.digitChar m) = Nat.digitChar m := by
  by_cases h : m < 16
  · interval_cases m <;> decide
  · have h0 : ¬m = 0 := by omega
    have h1 : ¬m = 1 := by omega
    have h2 : ¬m = 2 := by omega
    have h3 : ¬m = 3 := by omega
    have h4 : ¬m = 4 := by omega
    have h5 : ¬m = 5 := by omega
    have h6 : ¬m = 6 := by omega
    have h7 : ¬m = 7 := by omega
    have h8 : ¬m = 8 := by omega
    have h9 : ¬m = 9 := by omega
    have h10 : ¬m = 10 := by omega
    have h11 : ¬m = 11 := by omega
    have h12 : ¬m = 12 := by omega
    have h13 : ¬m = 13 := by omega
    have h14 : ¬m = 14 := by omega
    have h15 : ¬m = 15 := by omega
    unfold Nat.digitChar
    simp only [if_neg h0, if_neg h1, if_neg h2, if_neg h3, if_neg h4, if_neg h5,
      if_neg h6, if_neg h7, if_neg h8, if_neg h9, if_neg h10, if_neg h11,
      if_neg h12, if_neg h13, if_neg h14, if_neg h15]
    decide

theorem toDigitsCore_toLower_fixed (b fuel n : Nat) (ds : List Char)
    (h : ∀ c ∈ ds, Char.toLower c = c) :
    ∀ c ∈ Nat.toDigitsCore b fuel n ds, Char.toLower c = c := by
  induction fuel generalizing n ds with
  | zero => exact h
  | succ fuel ih =>
    intro c hc
    unfold Nat.toDigitsCore at hc
    have hcons : ∀ x ∈ Nat.digitChar (n % b) :: ds, Char.toLower x = x := by
      intro x hx
      rcases List.mem_cons.mp hx with h' | h'
      · subst h'; exact digitChar_toLower_fixed _
      · exact h x h'
    by_cases hz : n / b = 0
    · rw [if_pos hz] at hc
      exact hcons c hc
    · rw [if_neg hz] at hc
      exact ih _ _ hcons c hc

theorem repr_toLower_fixed (n : Nat) :
    ∀ c ∈ (Nat.repr n).data, Char.toLower c = c := by
  intro c hc
  have hdata : (Nat.repr n).data = Nat.toDigitsCore 10 (n + 1) n [] := rfl
  rw [hdata] at hc
  exact toDigitsCore_toLower_fixed 10 (n + 1) n []
    (fun x hx => absurd hx (List.not_mem_nil x)) c hc

theorem ref_toLower_fixed (n : Nat) :
    ∀ c ∈ ("#" ++ Nat.repr n).data, Char.toLower c = c := by
  intro c hc
  rw [String.data_append] at hc
  rcases List.mem_append.mp hc with h | h
  · have : c = '#' := by simpa using h
    subst this; decide
  · exact repr_toLower_fixed n c h

theorem map_toLower_of_fixed (l : List Char) (h : ∀ c ∈ l, Char.toLower c = c) :
    l.map Char.toLower = l :=
  List.map_congr_left h |>.trans (List.map_id l)

theorem strContains_strToLower_of_strContains (s pat : String)
    (hfix : ∀ c ∈ pat.data, Char.toLower c = c) (h : strContains s pat = true) :
    strContains (strToLower s) pat = true := by
  unfold strContains at h ⊢
  obtain ⟨u, v, huv⟩ := of_decide_eq_true h
  apply decide_eq_true
  refine ⟨u.map Char.toLower, v.map Char.toLower, ?_⟩
  rw [strToLower_data, ← huv]
  simp [map_toLower_of_fixed pat.data hfix]

theorem strContains_of_strContains_extended (s pat : String)
    (h : strContains s (pat ++ "1") = true) : strContains s pat = true := by
  unfold strContains at h ⊢
  apply decide_eq_true
  have hsub : pat.data <:+: (pat ++ "1").data := by
    rw [String.data_append]
    exact ⟨[], "1".data, by simp⟩
  exact hsub.trans (of_decide_eq_true h)

theorem prMatchesIssue_of_lower_title_or_body (n : Nat) (pr : PullRequest)
    (h : strContains (strToLower pr.title) ("#" ++ Nat.repr n) = true ∨
         strContains (strToLower pr.body) ("#" ++ Nat.repr n) = true) :
    prMatchesIssue n pr = true := by
  unfold prMatchesIssue
  rw [List.any_eq_true]
  refine ⟨"#" ++ Nat.repr n, by simp [issueRefs], ?_⟩
  rcases h with h | h
  · simp [h]
  · simp [h]

/-! ## Claim theorems about the substring match -/

/-- C4: the issue-reference test is a literal unanchored substring match:
a title or body containing the exact reference string is linked, and a
title or body containing the reference followed by a further digit (for
example `#111` against issue 11) is linked too. -/
theorem c4_unanchored_substring (n : Nat) (pr : PullRequest) :
    ((strContains pr.title ("#" ++ Nat.repr n) = true ∨
      strContains pr.body ("#" ++ Nat.repr n) = true) →
       prMatchesIssue n pr = true ∧
       ∀ prs, pr ∈ prs → findLinkedPR n prs ≠ none) ∧
    ((strContains pr.title ("#" ++ Nat.repr n ++ "1") = true ∨
      strContains pr.body ("#" ++ Nat.repr n ++ "1") = true) →
       prMatchesIssue n pr = true ∧
       ∀ prs, pr ∈ prs → findLinkedPR n prs ≠ none) := by
  have step : (strContains pr.title ("#" ++ Nat.repr n) = true ∨
      strContains pr.body ("#" ++ Nat.repr n) = true) →
      prMatchesIssue n pr = true := by
    intro h
    apply prMatchesIssue_of_lower_title_or_body
    rcases h with h | h
    · exact Or.inl (strContains_strToLower_of_strContains _ _ (ref_toLower_fixed n) h)
    · exact Or.inr (strContains_strToLower_of_strContains _ _ (ref_toLower_fixed n) h)
  constructor
  · intro h
    have hm := step h
    exact ⟨hm, fun prs hmem => findLinkedPR_ne_none n prs pr hmem hm⟩
  · intro h
    have hm : prMatchesIssue n pr = true := by
      apply step
      rcases h with h | h
      · exact Or.inl (strContains_of_strContains_extended _ _ h)
      · exact Or.inr (strContains_of_strContains_extended _ _ h)
    exact ⟨hm, fun prs hmem => findLinkedPR_ne_none n prs pr hmem hm⟩

/-- C4 witness: a PR titled `Fix #111` is linked to issue 11. -/
theorem c4_witness :
    prMatchesIssue 11 ⟨1, "Fix #111", "", "open", false, false⟩ = true :=
  ((c4_unanchored_substring 11 ⟨1, "Fix #111", "", "open", false, false⟩).2
    (Or.inl (by decide))).1

/-- C5: link detection is case-insensitive: pull requests whose titles
and bodies agree after lowering are linked identically, and lowering a
PR's title and body does not change whether it matches. -/
theorem c5_case_insensitive (n : Nat) (pr₁ pr₂ : PullRequest) :
    (strToLower pr₁.title = strToLower pr₂.title →
     strToLower pr₁.body = strToLower pr₂.body →
       prMatchesIssue n pr₁ = prMatchesIssue n pr₂) ∧
    prMatchesIssue n
        ⟨pr₁.number, strToLower pr₁.title, strToLower pr₁.body,
         pr₁.state, pr₁.merged, pr₁.draft⟩ =
      prMatchesIssue n pr₁ := by
  constructor
  · intro ht hb
    unfold prMatchesIssue
    rw [ht, hb]
  · unfold prMatchesIssue
    simp only [strToLower_idem]

/-- C5 witness: `FIX #7` and `fix #7` as titles give the same match
result for issue 7. -/
theorem c5_witness :
    prMatchesIssue 7 ⟨1, "FIX #7", "", "open", false, false⟩ =
      prMatchesIssue 7 ⟨2, "fix #7", "", "closed", true, true⟩ :=
  (c5_case_insensitive 7 ⟨1, "FIX #7", "", "open", false, false⟩
    ⟨2, "fix #7", "", "closed", true, true⟩).1 (by decide) (by decide)

/-! ## The remote repository client (`github_api.py`)

Each client method is embedded as a pure function of the outcome of the
HTTP request it performs. An outcome is either a response (status code
plus decoded JSON body) or a transport failure below the HTTP layer;
`raise_for_status` turns a non-2xx response into a raised error. -/

/-- Errors raised inside the client: HTTP errors from `raise_for_status`
(`requests.exceptions.HTTPError`), other request failures
(`requests.exceptions.RequestException`), and the plain exception raised
by `_make_graphql_request` on a GraphQL `errors` payload. -/
inductive ApiError where
  | httpError (status : Nat)
  | requestError
  | graphqlError (msg : String)
deriving DecidableEq, Repr

/-- The message of an error, as captured by `str(e)` in the handlers. -/
def ApiError.msg : ApiError → String
  | .httpError status => "HTTP " ++ Nat.repr status
  | .requestError => "request failed"
  | .graphqlError m => "GraphQL errors: " ++ m

/-- An HTTP response: status code and decoded JSON body. -/
structure HttpResponse (α : Type) where
  status : Nat
  body : α
deriving DecidableEq, Repr

/-- The outcome of one `requests.request` call. -/
inductive RequestOutcome (α : Type) where
  | response (r : HttpResponse α)
  | failure
deriving DecidableEq, Repr

/-- `_make_request` (`github_api.py`, lines 48-64): a single attempt;
non-2xx responses and request failures are raised to the caller. -/
def make_request {α : Type} (outcome : RequestOutcome α) : Except ApiError α :=
  match outcome with
  | .response r =>
    if 200 ≤ r.status ∧ r.status < 300 then .ok r.body
    else .error (.httpError r.status)
  | .failure => .error .requestError

/-- An actor node of the `suggestedActors` GraphQL reply. -/
structure Actor where
  login : Option String
  id : Option String
deriving DecidableEq, Repr

/-- The decoded body of the GraphQL reply used by
`check_repository_and_copilot`: an optional `errors` payload and the
`data` field, in which the actor list is `none` when the `repository`
key is absent. -/
structure GraphQLBody where
  errors : Option String
  actors : Option (List Actor)
deriving DecidableEq, Repr

/-- The outcome of the `requests.post` call of `_make_graphql_request`. -/
inductive GraphQLOutcome where
  | response (r : HttpResponse GraphQLBody)
  | failure
deriving DecidableEq, Repr

/-- `_make_graphql_request` (`github_api.py`, lines 66-87): a single
attempt; non-2xx responses are raised as HTTP errors, an `errors` key in
the reply is raised as a plain exception, and the `data` field is
returned otherwise. -/
def make_graphql_request (outcome : GraphQLOutcome) :
    Except ApiError (Option (List Actor)) :=
  match outcome with
  | .response r =>
    if 200 ≤ r.status ∧ r.status < 300 then
      match r.body.errors with
      | some msg => .error (.graphqlError msg)
      | none => .ok r.body.actors
    else .error (.httpError r.status)
  | .failure => .error .requestError

/-- The repository JSON consumed by `check_repository_and_copilot`. -/
structure RepoData where
  description : Option String
  privateFlag : Option Bool
  full_name : Option String
  default_branch : Option String
deriving DecidableEq, Repr

/-- The dictionary returned by `check_repository_and_copilot`; the error
branches return dictionaries without the descriptive keys, modelled here
by `none` defaults. -/
structure CheckResult where
  existsFlag : Bool
  copilot_enabled : Bool
  copilot_id : Option String := none
  description : Option String := none
  privateFlag : Option Bool := none
  full_name : Option String := none
  default_branch : Option String := none
  error : Option String := none
deriving DecidableEq, Repr

/-- The `except` clauses of `check_repository_and_copilot`
(`github_api.py`, lines 136-142): an HTTP error with status 404 becomes
`exists=False`, any other HTTP error is re-raised, and every other
exception becomes an `exists=False` dictionary carrying `str(e)`. -/
def handle_check_error (e : ApiError) : Except ApiError CheckResult :=
  match e with
  | .httpError status =>
    if status = 404 then .ok { existsFlag := false, copilot_enabled := false }
    else .error (.httpError status)
  | e => .ok { existsFlag := false, copilot_enabled := false, error := some e.msg }

/-- `check_repository_and_copilot` (`github_api.py`, lines 89-142): fetch
the repository, query the assignable actors, scan them for the login
`copilot-swe-agent`; errors are handled by `handle_check_error`. -/
def check_repository_and_copilot (repoOutcome : RequestOutcome RepoData)
    (gqlOutcome : GraphQLOutcome) : Except ApiError CheckResult :=
  let attempt : Except ApiError CheckResult :=
    match make_request repoOutcome with
    | .error e => .error e
    | .ok repo_data =>
      match make_graphql_request gqlOutcome with
      | .error e => .error e
      | .ok actorsOpt =>
        let found : Option Actor :=
          match actorsOpt with
          | some actors => actors.find? fun a : Actor => a.login == some "copilot-swe-agent"
          | none => none
        .ok { existsFlag := true
              copilot_enabled := found.isSome
              copilot_id := found.bind Actor.id
              description := some (repo_data.description.getD "")
              privateFlag := some (repo_data.privateFlag.getD false)
              full_name := repo_data.full_name
              default_branch := some (repo_data.default_branch.getD "main") }
  match attempt with
  | .ok r => .ok r
  | .error e => handle_check_error e

/-- An entry of the issues listing; `is_pull_request` models the presence
of the `pull_request` key in the issue JSON. -/
structure IssueItem where
  number : Nat
  title : String
  is_pull_request : Bool
deriving DecidableEq, Repr

/-- `get_repository_issues` (`github_api.py`, lines 144-158): on success
filter out pull requests; on any exception return the empty list. -/
def get_repository_issues (outcome : RequestOutcome (List IssueItem)) :
    Except ApiError (List IssueItem) :=
  match make_request outcome with
  | .ok issues => .ok (issues.filter fun i => !i.is_pull_request)
  | .error _ => .ok []

/-- An entry of the repository-search result list. -/
structure RepoItem where
  full_name : String
deriving DecidableEq, Repr

/-- The search reply body: `result.get("items", [])`. -/
structure SearchResult where
  items : Option (List RepoItem)
deriving DecidableEq, Repr

/-- `search_repositories` (`github_api.py`, lines 451-465): on success
return the `items` list (empty when absent); on any exception return the
empty list. -/
def search_repositories (outcome : RequestOutcome SearchResult) :
    Except ApiError (List RepoItem) :=
  match make_request outcome with
  | .ok result => .ok (result.items.getD [])
  | .error _ => .ok []

/-! ## Claim theorems about the client -/

/-- C6 counterexample: on a 500 response — a non-2xx HTTP error — the
issue-listing and repository-search calls do not propagate a transport
error; each returns the substitute value `[]`. -/
theorem c6_counterexample :
    get_repository_issues (RequestOutcome.response ⟨500, []⟩) =
      Except.ok ([] : List IssueItem) ∧
    get_repository_issues (RequestOutcome.response ⟨500, []⟩) ≠
      Except.error (ApiError.httpError 500) ∧
    search_repositories (RequestOutcome.response ⟨500, ⟨none⟩⟩) =
      Except.ok ([] : List RepoItem) ∧
    search_repositories (RequestOutcome.response ⟨500, ⟨none⟩⟩) ≠
      Except.error (ApiError.httpError 500) := by
  refine ⟨rfl, ?_, rfl, ?_⟩ <;> · intro hcon; simp [get_repository_issues,
    search_repositories, make_request] at hcon

/-- C6 (amended): the low-level request helpers make a single attempt
and raise on non-2xx or query errors, but `get_repository_issues` and
`search_repositories` swallow every error and return `[]`, while
`check_repository_and_copilot` converts errors into `exists=False`
substitutes and propagates only non-404 HTTP errors. -/
theorem c6_amended_error_behaviour (o₁ : RequestOutcome (List IssueItem))
    (e₁ : ApiError) (o₂ : RequestOutcome SearchResult) (e₂ : ApiError)
    (o₃ : RequestOutcome RepoData) (gql : GraphQLOutcome) (status : Nat)
    (rd : RepoData) (msg : String) :
    (make_request o₁ = .error e₁ → get_repository_issues o₁ = .ok []) ∧
    (make_request o₂ = .error e₂ → search_repositories o₂ = .ok []) ∧
    (make_request o₃ = .error (.httpError 404) →
       check_repository_and_copilot o₃ gql =
         .ok { existsFlag := false, copilot_enabled := false }) ∧
    (status ≠ 404 → make_request o₃ = .error (.httpError status) →
       check_repository_and_copilot o₃ gql = .error (.httpError status)) ∧
    (make_request o₃ = .ok rd →
     make_graphql_request gql = .error (.graphqlError msg) →
       check_repository_and_copilot o₃ gql =
         .ok { existsFlag := false, copilot_enabled := false,
               error := some ((ApiError.graphqlError msg).msg) }) := by
  refine ⟨?_, ?_, ?_, ?_, ?_⟩
  · intro h; simp [get_repository_issues, h]
  · intro h; simp [search_repositories, h]
  · intro h; simp [check_repository_and_copilot, h, handle_check_error]
  · intro hne h
    simp [check_repository_and_copilot, h, handle_check_error, hne]
  · intro h₃ hg
    simp [check_repository_and_copilot, h₃, hg, handle_check_error, ApiError.msg]

/-- C6 witness: a transport failure below the HTTP layer also yields the
substitute `[]` from the issue listing. -/
theorem c6_witness :
    get_repository_issues (RequestOutcome.failure : RequestOutcome (List IssueItem)) =
      Except.ok [] :=
  (c6_amended_error_behaviour RequestOutcome.failure ApiError.requestError
      RequestOutcome.failure ApiError.requestError RequestOutcome.failure
      GraphQLOutcome.failure 500 ⟨none, none, none, none⟩ "boom").1 rfl

/-- C7: the availability check returns `exists=False` on a 404 from the
repository lookup, and on the success path reports the agent enabled
exactly when the login `copilot-swe-agent` appears among the assignable
actors. -/
theorem c7_availability_check (r : HttpResponse RepoData) (gql : GraphQLOutcome)
    (r₂ : HttpResponse RepoData) (gr : HttpResponse GraphQLBody)
    (actors : List Actor) :
    (r.status = 404 →
       ∃ c, check_repository_and_copilot (.response r) gql = .ok c ∧
         c.existsFlag = false ∧ c.copilot_enabled = false) ∧
    (200 ≤ r₂.status → r₂.status < 300 → 200 ≤ gr.status → gr.status < 300 →
     gr.body.errors = none → gr.body.actors = some actors →
       ∃ c, check_repository_and_copilot (.response r₂) (.response gr) = .ok c ∧
         c.existsFlag = true ∧
         (c.copilot_enabled = true ↔
           ∃ a ∈ actors, a.login = some "copilot-swe-agent")) := by
  constructor
  · intro h404
    refine ⟨{ existsFlag := false, copilot_enabled := false }, ?_, rfl, rfl⟩
    have hreq : make_request (RequestOutcome.response r) =
        .error (.httpError 404) := by
      simp only [make_request]
      rw [if_neg (by omega), h404]
    simp [check_repository_and_copilot, hreq, handle_check_error]
  · intro h1 h2 h3 h4 herr hdata
    have hreq : make_request (RequestOutcome.response r₂) = .ok r₂.body := by
      simp [make_request, h1, h2]
    have hgql : make_graphql_request (GraphQLOutcome.response gr) =
        .ok (some actors) := by
      simp [make_graphql_request, h3, h4, herr, hdata]
    refine ⟨{ existsFlag := true
              copilot_enabled := (actors.find? fun x : Actor =>
                x.login == some "copilot-swe-agent").isSome
              copilot_id := (actors.find? fun x : Actor =>
                x.login == some "copilot-swe-agent").bind Actor.id
              description := some (r₂.body.description.getD "")
              privateFlag := some (r₂.body.privateFlag.getD false)
              full_name := r₂.body.full_name
              default_branch := some (r₂.body.default_branch.getD "main") },
      ?_, rfl, ?_⟩
    · simp only [check_repository_and_copilot, hreq, hgql]
    · simp only [Option.isSome_iff_exists]
      constructor
      · rintro ⟨a, ha⟩
        have hmem := List.mem_of_find?_eq_some ha
        have hp := List.find?_some ha
        exact ⟨a, hmem, by simpa using hp⟩
      · rintro ⟨a, hmem, hlogin⟩
        have : (actors.find? fun x : Actor =>
            x.login == some "copilot-swe-agent").isSome = true := by
          rw [List.find?_isSome]
          exact ⟨a, hmem, by simpa using hlogin⟩
        rcases Option.isSome_iff_exists.mp this with ⟨b, hb⟩
        exact ⟨b, hb⟩

/-- C7 witness: a 404 yields `exists=False`, and a successful query whose
actor list contains the agent login reports the agent enabled. -/
theorem c7_witness :
    (∃ c, check_repository_and_copilot
        (.response ⟨404, ⟨none, none, none, none⟩⟩) GraphQLOutcome.failure =
          .ok c ∧ c.existsFlag = false ∧ c.copilot_enabled = false) ∧
    (∃ c, check_repository_and_copilot
        (.response ⟨200, ⟨none, none, none, none⟩⟩)
        (.response ⟨200, ⟨none, some [⟨some "copilot-swe-agent", some "BOT1"⟩]⟩⟩) =
          .ok c ∧ c.existsFlag = true ∧
          (c.copilot_enabled = true ↔
            ∃ a ∈ [Actor.mk (some "copilot-swe-agent") (some "BOT1")],
              a.login = some "copilot-swe-agent")) := by
  have h := c7_availability_check ⟨404, ⟨none, none, none, none⟩⟩
    GraphQLOutcome.failure ⟨200, ⟨none, none, none, none⟩⟩
    ⟨200, ⟨none, some [⟨some "copilot-swe-agent", some "BOT1"⟩]⟩⟩
    [⟨some "copilot-swe-agent", some "BOT1"⟩]
  exact ⟨h.1 rfl, h.2 (by decide) (by decide) (by decide) (by decide) rfl rfl⟩

/-! ## The tool-call shim (`mcp_integration.py`, `tools/mcp_github.py`) -/

/-- The dictionary returned by
`call_mcp_github_assign_copilot_to_issue` on its success path. -/
structure AssignResult where
  success : Bool
  issue_number : Nat
  repository : String
  assigned : Bool
  session_id : String
  timestamp : String
  mcp_tool_used : Bool
deriving DecidableEq, Repr

/-- `call_mcp_github_assign_copilot_to_issue` (`mcp_integration.py`,
lines 48-73): no external call is made; a success dictionary with a
synthetic session id and the current timestamp is fabricated. The
timestamp source `datetime.utcnow().isoformat()` is passed in as `now`. -/
def call_mcp_github_assign_copilot_to_issue (owner repo : String)
    (issue_number : Nat) (now : String) : AssignResult :=
  { success := true
    issue_number := issue_number
    repository := owner ++ "/" ++ repo
    assigned := true
    session_id := "copilot-session-" ++ Nat.repr issue_number
    timestamp := now ++ "Z"
    mcp_tool_used := true }

/-- The dictionary returned by
`call_mcp_github_create_pull_request_with_copilot` on its success path. -/
structure CreatePRResult where
  success : Bool
  pr_number : Nat
  repository : String
  title : String
  pr_url : String
  mcp_tool_used : Bool
deriving DecidableEq, Repr

/-- `call_mcp_github_create_pull_request_with_copilot`
(`mcp_integration.py`, lines 75-99): no external call is made; a success
dictionary with the constant synthetic PR number 123 is fabricated. -/
def call_mcp_github_create_pull_request_with_copilot (owner repo : String)
    (_problem_statement : String) (title : String)
    (_base_ref : Option String) : CreatePRResult :=
  { success := true
    pr_number := 123
    repository := owner ++ "/" ++ repo
    title := title
    pr_url := "https://github.com/" ++ owner ++ "/" ++ repo ++ "/pull/123"
    mcp_tool_used := true }

/-- The dictionary returned by the placeholder wrappers of
`tools/mcp_github.py`. -/
structure SimpleResult where
  success : Bool
  message : String
deriving DecidableEq, Repr

/-- `assign_copilot_to_issue` (`tools/mcp_github.py`, lines 14-29): a
placeholder that logs and fabricates a success response. -/
def assign_copilot_to_issue (_owner _repo : String) (issue_number : Nat) :
    SimpleResult :=
  { success := true
    message := "Issue #" ++ Nat.repr issue_number ++
      " assigned to Copilot (simulated)" }

/-- C9: the shim fabricates success: the assign call always reports
`success=True`, `assigned=True` and the synthetic session id
`copilot-session-{issue_number}`, the create-PR call always reports
`success=True` with the constant PR number 123, and the placeholder
wrapper always reports `success=True`. -/
theorem c9_shim_fabricates_success (owner repo : String) (issue_number : Nat)
    (now problem_statement title : String) (base_ref : Option String) :
    (call_mcp_github_assign_copilot_to_issue owner repo issue_number now).success
        = true ∧
    (call_mcp_github_assign_copilot_to_issue owner repo issue_number now).assigned
        = true ∧
    (call_mcp_github_assign_copilot_to_issue owner repo issue_number now).session_id
        = "copilot-session-" ++ Nat.repr issue_number ∧
    (call_mcp_github_create_pull_request_with_copilot owner repo
        problem_statement title base_ref).success = true ∧
    (call_mcp_github_create_pull_request_with_copilot owner repo
        problem_statement title base_ref).pr_number = 123 ∧
    (assign_copilot_to_issue owner repo issue_number).success = true :=
  ⟨rfl, rfl, rfl, rfl, rfl, rfl⟩

/-! ## The work item store (`app.py`, `models.py`)

The persisted rows touched by the two uniqueness-sensitive routes are
modelled as lists, with autoincrement ids threaded through the state. -/

/-- A persisted `Repository` row (`models.py`). -/
structure RepoRow where
  id : Nat
  owner : String
  name : String
  copilot_enabled : Bool
  description : String
  privateFlag : Bool
deriving DecidableEq, Repr

/-- A persisted `Task` row (`models.py`). -/
structure TaskRow where
  id : Nat
  repository_id : Nat
  issue_number : Nat
  title : String
  description : String
  status : String
deriving DecidableEq, Repr

/-- The persisted store state. -/
structure Store where
  repos : List RepoRow
  tasks : List TaskRow
  nextRepoId : Nat
  nextTaskId : Nat
deriving DecidableEq, Repr

/-- The issue JSON consumed by the assignment route. -/
structure IssueData where
  title : Option String
  body : Option String
deriving DecidableEq, Repr

/-- The POST handler of `add_repository` (`app.py`, lines 74-118): reject
missing fields, reject an existing (owner, name) pair, reject a failed or
negative availability check, otherwise insert one row and commit. -/
def add_repository (st : Store) (owner name : String)
    (repo_info : Except ApiError CheckResult) : Store :=
  if owner = "" ∨ name = "" then st
  else if (st.repos.find? fun r => r.owner == owner && r.name == name).isSome then st
  else
    match repo_info with
    | .error _ => st
    | .ok info =>
      if !info.existsFlag then st
      else
        { st with
          repos := st.repos ++
            [{ id := st.nextRepoId
               owner := owner
               name := name
               copilot_enabled := info.copilot_enabled
               description := info.description.getD ""
               privateFlag := info.privateFlag.getD false }]
          nextRepoId := st.nextRepoId + 1 }

/-- `assign_issue_to_copilot_route` (`app.py`, lines 192-230): 404 on an
unknown repository id, reject an existing (repository, issue_number)
pair, redirect on a failed issue fetch, otherwise insert one task row
marked `assigned` and commit. -/
def assign_issue_to_copilot_route (st : Store) (repo_id issue_number : Nat)
    (issueResp : Except ApiError IssueData) : Store :=
  if (st.repos.find? fun r => r.id == repo_id).isNone then st
  else if (st.tasks.find? fun t =>
      t.repository_id == repo_id && t.issue_number == issue_number).isSome then st
  else
    match issueResp with
    | .error _ => st
    | .ok issue =>
      { st with
        tasks := st.tasks ++
          [{ id := st.nextTaskId
             repository_id := repo_id
             issue_number := issue_number
             title := issue.title.getD ("Issue #" ++ Nat.repr issue_number)
             description := issue.body.getD ""
             status := "assigned" }]
        nextTaskId := st.nextTaskId + 1 }

/-- The (owner, name) pairs of the repository rows are pairwise distinct
(the `unique_repo` constraint of `models.py`). -/
def reposUnique (st : Store) : Prop :=
  st.repos.Pairwise fun r₁ r₂ => ¬(r₁.owner = r₂.owner ∧ r₁.name = r₂.name)

/-- The (repository_id, issue_number) pairs of the task rows are pairwise
distinct (the `unique_task` constraint of `models.py`). -/
def tasksUnique (st : Store) : Prop :=
  st.tasks.Pairwise fun t₁ t₂ =>
    ¬(t₁.repository_id = t₂.repository_id ∧ t₁.issue_number = t₂.issue_number)

/-- Store states reachable from the empty database through the two
uniqueness-sensitive routes. -/
inductive Reachable : Store → Prop where
  | init : Reachable ⟨[], [], 1, 1⟩
  | addRepo (st : Store) (owner name : String)
      (repo_info : Except ApiError CheckResult) :
      Reachable st → Reachable (add_repository st owner name repo_info)
  | assign (st : Store) (repo_id issue_number : Nat)
      (issueResp : Except ApiError IssueData) :
      Reachable st → Reachable
        (assign_issue_to_copilot_route st repo_id issue_number issueResp)

theorem add_repository_preserves_unique (st : Store) (owner name : String)
    (repo_info : Except ApiError CheckResult)
    (h : reposUnique st ∧ tasksUnique st) :
    reposUnique (add_repository st owner name repo_info) ∧
      tasksUnique (add_repository st owner name repo_info) := by
  unfold add_repository
  by_cases h0 : owner = "" ∨ name = ""
  · rw [if_pos h0]; exact h
  rw [if_neg h0]
  by_cases h1 : (st.repos.find? fun r => r.owner == owner && r.name == name).isSome
  · rw [if_pos h1]; exact h
  rw [if_neg h1]
  split
  next => exact h
  next info =>
    split
    next h2 => exact h
    next h2 =>
      refine ⟨?_, h.2⟩
      have hnone : (st.repos.find? fun r => r.owner == owner && r.name == name)
          = none := by
        cases hf : st.repos.find? fun r => r.owner == owner && r.name == name with
        | none => rfl
        | some r => rw [hf] at h1; simp at h1
      have hno : ∀ r ∈ st.repos, ¬(r.owner = owner ∧ r.name = name) := by
        intro r hr hcon
        have := List.find?_eq_none.mp hnone r hr
        simp [hcon.1, hcon.2] at this
      unfold reposUnique
      rw [List.pairwise_append]
      refine ⟨h.1, by simp, ?_⟩
      intro a ha b hb
      have hbeq : b.owner = owner ∧ b.name = name := by
        simp only [List.mem_singleton] at hb
        subst hb
        exact ⟨rfl, rfl⟩
      intro hcon
      exact hno a ha ⟨hcon.1.trans hbeq.1, hcon.2.trans hbeq.2⟩

theorem assign_preserves_unique (st : Store) (repo_id issue_number : Nat)
    (issueResp : Except ApiError IssueData)
    (h : reposUnique st ∧ tasksUnique st) :
    reposUnique (assign_issue_to_copilot_route st repo_id issue_number issueResp) ∧
      tasksUnique (assign_issue_to_copilot_route st repo_id issue_number issueResp) := by
  unfold assign_issue_to_copilot_route
  by_cases h0 : (st.repos.find? fun r => r.id == repo_id).isNone
  · rw [if_pos h0]; exact h
  rw [if_neg h0]
  by_cases h1 : (st.tasks.find? fun t =>
      t.repository_id == repo_id && t.issue_number == issue_number).isSome
  · rw [if_pos h1]; exact h
  rw [if_neg h1]
  split
  next => exact h
  next issue =>
    refine ⟨h.1, ?_⟩
    have hnone : (st.tasks.find? fun t =>
        t.repository_id == repo_id && t.issue_number == issue_number) = none := by
      cases hf : st.tasks.find? fun t =>
          t.repository_id == repo_id && t.issue_number == issue_number with
      | none => rfl
      | some t => rw [hf] at h1; simp at h1
    have hno : ∀ t ∈ st.tasks,
        ¬(t.repository_id = repo_id ∧ t.issue_number = issue_number) := by
      intro t ht hcon
      have := List.find?_eq_none.mp hnone t ht
      simp [hcon.1, hcon.2] at this
    unfold tasksUnique
    rw [List.pairwise_append]
    refine ⟨h.2, by simp, ?_⟩
    intro a ha b hb
    have hbeq : b.repository_id = repo_id ∧ b.issue_number = issue_number := by
      simp only [List.mem_singleton] at hb
      subst hb
      exact ⟨rfl, rfl⟩
    intro hcon
    exact hno a ha ⟨hcon.1.trans hbeq.1, hcon.2.trans hbeq.2⟩

theorem reachable_unique (st : Store) (h : Reachable st) :
    reposUnique st ∧ tasksUnique st := by
  induction h with
  | init => exact ⟨List.Pairwise.nil, List.Pairwise.nil⟩
  | addRepo st owner name repo_info _ ih =>
    exact add_repository_preserves_unique st owner name repo_info ih
  | assign st repo_id issue_number issueResp _ ih =>
    exact assign_preserves_unique st repo_id issue_number issueResp ih

/-- C8: adding an already-present (owner, name) repository or assigning
an already-assigned (repository, issue_number) pair leaves the store
unchanged, and every store state reachable through these routes keeps
both pairs unique. -/
theorem c8_uniqueness (st : Store) (owner name : String)
    (repo_info : Except ApiError CheckResult) (repo_id issue_number : Nat)
    (issueResp : Except ApiError IssueData) :
    ((∃ r ∈ st.repos, r.owner = owner ∧ r.name = name) →
       add_repository st owner name repo_info = st) ∧
    ((∃ t ∈ st.tasks, t.repository_id = repo_id ∧ t.issue_number = issue_number) →
       assign_issue_to_copilot_route st repo_id issue_number issueResp = st) ∧
    (Reachable st → reposUnique st ∧ tasksUnique st) := by
  refine ⟨?_, ?_, reachable_unique st⟩
  · rintro ⟨r, hr, hown, hname⟩
    unfold add_repository
    by_cases h0 : owner = "" ∨ name = ""
    · rw [if_pos h0]
    have hsome : (st.repos.find? fun x =>
        x.owner == owner && x.name == name).isSome = true := by
      rw [List.find?_isSome]
      exact ⟨r, hr, by simp [hown, hname]⟩
    rw [if_neg h0, if_pos hsome]
  · rintro ⟨t, ht, hrid, hnum⟩
    unfold assign_issue_to_copilot_route
    by_cases h0 : (st.repos.find? fun r => r.id == repo_id).isNone
    · rw [if_pos h0]
    have hsome : (st.tasks.find? fun x =>
        x.repository_id == repo_id && x.issue_number == issue_number).isSome
        = true := by
      rw [List.find?_isSome]
      exact ⟨t, ht, by simp [hrid, hnum]⟩
    rw [if_neg h0, if_pos hsome]

/-- C8 witness: at a concrete one-row store, re-adding the same
repository pair and re-assigning the same issue pair are both no-ops. -/
theorem c8_witness :
    add_repository
        ⟨[⟨1, "Teckt", "shadow-clone", true, "", false⟩],
         [⟨1, 1, 1, "t", "", "assigned"⟩], 2, 2⟩
        "Teckt" "shadow-clone" (.ok { existsFlag := true, copilot_enabled := true }) =
      ⟨[⟨1, "Teckt", "shadow-clone", true, "", false⟩],
       [⟨1, 1, 1, "t", "", "assigned"⟩], 2, 2⟩ ∧
    assign_issue_to_copilot_route
        ⟨[⟨1, "Teckt", "shadow-clone", true, "", false⟩],
         [⟨1, 1, 1, "t", "", "assigned"⟩], 2, 2⟩
        1 1 (.ok ⟨some "t", some ""⟩) =
      ⟨[⟨1, "Teckt", "shadow-clone", true, "", false⟩],
       [⟨1, 1, 1, "t", "", "assigned"⟩], 2, 2⟩ := by
  have h := c8_uniqueness
    ⟨[⟨1, "Teckt", "shadow-clone", true, "", false⟩],
     [⟨1, 1, 1, "t", "", "assigned"⟩], 2, 2⟩
    "Teckt" "shadow-clone" (.ok { existsFlag := true, copilot_enabled := true })
    1 1 (.ok ⟨some "t", some ""⟩)
  exact ⟨h.1 ⟨⟨1, "Teckt", "shadow-clone", true, "", false⟩, by simp, rfl, rfl⟩,
         h.2.1 ⟨⟨1, 1, 1, "t", "", "assigned"⟩, by simp, rfl, rfl⟩⟩
